import Mathlib

/-!
Shallow embedding of `redis.go` from the `redis-client` repository.

The Go file wraps the external redis driver with:
* `InitRedisClient` / `initSingleClient` / `initClusterClient` — client
  construction, publication into package-level globals, and a `Ping` probe;
* `Scan` — a cursor loop over the store (single-node branch), or one such
  loop per master shard with a mutex-guarded first-error slot (cluster
  branch);
* `Type` and `Get` — single-key lookups with error wrapping.

The external store driver is modelled as an oracle: a `step` function from
(pattern, count, cursor) to either an error or a pair (key batch, next
cursor), exactly the data the Go code reads out of `Client.Scan(...).Result()`.
The non-terminating `for` loops are embedded with explicit fuel: a result of
`none` means the loop did not finish within the given fuel, and `some r`
means the Go loop finished with outcome `r`.  The list component of the
result is the trace of arguments that the callback `fn` was invoked with,
in invocation order.
-/

namespace RedisClient

/-- One round of the Go scan loop body (lines 100-127 and 137-153 of
`redis.go`): fetch a batch at `cursor`, pass it to `fn`, stop on the zero
cursor, otherwise continue from the returned cursor.  Returns the trace of
batches handed to `fn` together with the loop's outcome; `none` means the
fuel ran out before the loop finished. -/
def scanLoop {E : Type} (step : Nat → Except E (List String × Nat))
    (fn : List String → Except E Unit) :
    Nat → Nat → Option (List (List String) × Except E Unit)
  | 0, _ => none
  | fuel + 1, cursor =>
    match step cursor with
    | Except.error e => some ([], Except.error e)
    | Except.ok (keys, c) =>
      match fn keys with
      | Except.error e => some ([keys], Except.error e)
      | Except.ok _ =>
        if c = 0 then some ([keys], Except.ok ())
        else
          match scanLoop step fn fuel c with
          | none => none
          | some (bs, r) => some (keys :: bs, r)

/-- The single-node branch of `Scan` (lines 136-155): run the cursor loop
from the starting cursor `0`, with the store queried at the caller's
`pattern` and `count` each round. -/
def ScanSingle {E : Type} (step : String → Int → Nat → Except E (List String × Nat))
    (pattern : String) (count : Int) (fn : List String → Except E Unit)
    (fuel : Nat) : Option (List (List String) × Except E Unit) :=
  scanLoop (step pattern count) fn fuel 0

/-- A run of the store oracle: `storeChain step c rounds` says that starting
from cursor `c` the store answers the successive requests with the batches
and next-cursors listed in `rounds`, the last round returning the sentinel
cursor `0` and every earlier round a nonzero cursor. -/
def storeChain {E : Type} (step : Nat → Except E (List String × Nat)) :
    Nat → List (List String × Nat) → Prop
  | _, [] => False
  | c, [(k, n)] => step c = Except.ok (k, n) ∧ n = 0
  | c, (k, n) :: r :: rs =>
    step c = Except.ok (k, n) ∧ n ≠ 0 ∧ storeChain step n (r :: rs)

/-- Outcome of one cluster shard worker (lines 98-128 of `redis.go`): the
worker runs the same cursor loop on its master; `none` means the loop
finished without an error, `some e` means the worker records `e` (a store
error or a callback error) into the first-error slot.  Entry `i` of the
result is shard `i`'s recorded error, meaningful when shard `i`'s loop
terminates within `fuel`. -/
def shardOutcomes {E : Type} (masters : List (String → Int → Nat → Except E (List String × Nat)))
    (pattern : String) (count : Int) (fn : List String → Except E Unit)
    (fuel : Nat) : List (Option E) :=
  masters.map fun m =>
    match scanLoop (m pattern count) fn fuel 0 with
    | some (_, Except.error e) => some e
    | _ => none

/-- The cluster branch of `Scan` (lines 91-135): one worker per master, a
mutex-guarded write-once first-error slot, `wg.Wait()`, then `firstErr` if
set, else the error of the master-enumeration call.  The scheduler
nondeterminism is exposed as `arrival`: the order (by shard index) in which
the workers acquire the mutex; a worker that fails records its error into
the slot only when the slot is still empty.  `masterErr` is the error of
`ForEachMaster` itself.  Result `some (some e)` means Go's `Scan` returns
the error `e`, `some none` means it returns nil, and `none` means some
worker's loop did not finish within `fuel`. -/
def ScanCluster {E : Type} (masters : List (String → Int → Nat → Except E (List String × Nat)))
    (pattern : String) (count : Int) (fn : List String → Except E Unit)
    (fuel : Nat) (arrival : List Nat) (masterErr : Option E) : Option (Option E) :=
  if (masters.map fun m => scanLoop (m pattern count) fn fuel 0).all Option.isSome then
    some (match (arrival.findSome? fun i =>
            (shardOutcomes masters pattern count fn fuel).getD i none) with
      | some e => some e
      | none => masterErr)
  else none

/-- Top of `Scan` (line 90): branch on the cluster-mode flag.  The result
encodes only the returned error (`some (some e)` = error `e`, `some none` =
nil, `none` = fuel ran out). -/
def Scan {E : Type} (isCluster : Bool)
    (step : String → Int → Nat → Except E (List String × Nat))
    (masters : List (String → Int → Nat → Except E (List String × Nat)))
    (pattern : String) (count : Int) (fn : List String → Except E Unit)
    (fuel : Nat) (arrival : List Nat) (masterErr : Option E) : Option (Option E) :=
  if isCluster then ScanCluster masters pattern count fn fuel arrival masterErr
  else (ScanSingle step pattern count fn fuel).map fun p =>
    match p.2 with
    | Except.ok _ => none
    | Except.error e => some e

/-- The distinct error values built by the `fmt.Errorf` call sites of
`redis.go`, one constructor per format string, carrying the interpolated
arguments. -/
inductive GoErr where
  | typeStoreErr (key : String) (cause : String)
  | typeNotFoundErr (key : String)
  | getStoreErr (key : String) (cause : String)
  | connectErr (cause : String)
  | connectClusterErr (cause : String)
deriving DecidableEq

/-- The exact message each `fmt.Errorf` call site renders (with `%v` of the
wrapped cause taken as the cause's own message). -/
def GoErr.render : GoErr → String
  | typeStoreErr key cause => ("failed to get type of key " ++ key ++ ": ") ++ cause
  | typeNotFoundErr key => "key " ++ key ++ " does not exist"
  | getStoreErr key cause => ("failed to get value of key " ++ key ++ ": ") ++ cause
  | connectErr cause => "failed to connect to Redis: " ++ cause
  | connectClusterErr cause => "failed to connect to Redis Cluster: " ++ cause

/-- Shared body of both branches of `Type` (lines 158-179): wrap a store
error, turn the store's "none" sentinel into a does-not-exist error,
otherwise return the type name.  `res` is the store's `Type(...).Result()`
answer. -/
def typeBranch (key : String) (res : Except String String) : Except GoErr String :=
  match res with
  | Except.error e => Except.error (GoErr.typeStoreErr key e)
  | Except.ok t =>
    if t = "none" then Except.error (GoErr.typeNotFoundErr key)
    else Except.ok t

/-- `Type` (lines 158-179): route to the cluster or single client by the
cluster flag; both branches treat the answer identically. -/
def TypeGo (isCluster : Bool) (clusterRes singleRes : Except String String)
    (key : String) : Except GoErr String :=
  if isCluster then typeBranch key clusterRes else typeBranch key singleRes

/-- Shared body of both branches of `Get` (lines 181-195): wrap any store
error, otherwise return the value unchanged. -/
def getBranch (key : String) (res : Except String String) : Except GoErr String :=
  match res with
  | Except.error e => Except.error (GoErr.getStoreErr key e)
  | Except.ok v => Except.ok v

/-- `Get` (lines 181-195): route to the cluster or single client by the
cluster flag; both branches treat the answer identically. -/
def Get (isCluster : Bool) (clusterRes singleRes : Except String String)
    (key : String) : Except GoErr String :=
  if isCluster then getBranch key clusterRes else getBranch key singleRes

/-- The `RedisConfig` struct (lines 12-18). -/
structure RedisConfig where
  isCluster : Bool
  nodes : List String
  addr : String
  password : String
  db : Int
deriving DecidableEq

/-- A constructed client handle: `redis.NewClient` keeps address, password
and database index; `redis.NewClusterClient` keeps the seed address list
and password (lines 54-58 and 70-73). -/
inductive Handle where
  | single (addr password : String) (db : Int)
  | cluster (addrs : List String) (password : String)
deriving DecidableEq

/-- The package-level globals `Client` and `ClusterClient` (lines 21-25);
`none` models a nil handle. -/
structure Globals where
  client : Option Handle
  clusterClient : Option Handle
deriving DecidableEq

/-- `initSingleClient` (lines 53-66): build the client, assign the global,
then probe with `Ping`; `ping h = some e` models a probe that fails with
message `e`.  Returns the new globals and the returned error, if any. -/
def initSingleClient (ping : Handle → Option String) (cfg : RedisConfig)
    (g : Globals) : Globals × Option GoErr :=
  let h := Handle.single cfg.addr cfg.password cfg.db
  let g' := { g with client := some h }
  match ping h with
  | some e => (g', some (GoErr.connectErr e))
  | none => (g', none)

/-- `initClusterClient` (lines 69-82): build the cluster client, assign both
globals, then probe with `Ping`. -/
def initClusterClient (ping : Handle → Option String) (cfg : RedisConfig)
    (g : Globals) : Globals × Option GoErr :=
  let h := Handle.cluster cfg.nodes cfg.password
  let g' := { g with client := some h, clusterClient := some h }
  match ping h with
  | some e => (g', some (GoErr.connectClusterErr e))
  | none => (g', none)

/-- `InitRedisClient` (lines 45-50): dispatch on the cluster flag. -/
def InitRedisClient (ping : Handle → Option String) (cfg : RedisConfig)
    (g : Globals) : Globals × Option GoErr :=
  if cfg.isCluster then initClusterClient ping cfg g
  else initSingleClient ping cfg g

/-- The handle `InitRedisClient` constructs for a given configuration. -/
def builtHandle (cfg : RedisConfig) : Handle :=
  if cfg.isCluster then Handle.cluster cfg.nodes cfg.password
  else Handle.single cfg.addr cfg.password cfg.db

/-! Concrete fixtures used only to instantiate theorems at closed inputs. -/

/-- A concrete two-round store: cursor 0 yields batch `["a:1"]` with next
cursor 5, cursor 5 yields batch `["a:2"]` with the zero cursor. -/
def stepW (_pattern : String) (_count : Int) : Nat → Except String (List String × Nat)
  | 0 => Except.ok (["a:1"], 5)
  | 5 => Except.ok (["a:2"], 0)
  | _ => Except.error "unexpected cursor"

/-- A concrete store whose every round reports an empty batch and the zero
cursor (an empty keyspace). -/
def stepEmpty (_pattern : String) (_count : Int) :
    Nat → Except String (List String × Nat) :=
  fun _ => Except.ok ([], 0)

/-- A concrete store whose every request fails. -/
def stepDown (_pattern : String) (_count : Int) :
    Nat → Except String (List String × Nat) :=
  fun _ => Except.error "shard down"

/-- A callback that always succeeds. -/
def fnOk : List String → Except String Unit := fun _ => Except.ok ()

/-- A callback that always fails. -/
def fnBad : List String → Except String Unit := fun _ => Except.error "callback failed"

/-- A concrete single-node configuration. -/
def cfgSingle : RedisConfig :=
  { isCluster := false, nodes := [], addr := "127.0.0.1:6379",
    password := "pw", db := 2 }

/-- A concrete cluster configuration. -/
def cfgCluster : RedisConfig :=
  { isCluster := true, nodes := ["n1:6379", "n2:6379"], addr := "",
    password := "pw", db := 0 }

/-- A probe that fails against every handle. -/
def pingDown : Handle → Option String := fun _ => some "dial refused"

/-- A probe that succeeds against every handle. -/
def pingUp : Handle → Option String := fun _ => none

/-- Globals before initialization: both handles nil. -/
def g0 : Globals := { client := none, clusterClient := none }

end RedisClient

namespace RedisClient

theorem scanLoop_succ {E : Type} (step : Nat → Except E (List String × Nat))
    (fn : List String → Except E Unit) (fuel cursor : Nat) :
    scanLoop step fn (fuel + 1) cursor =
      match step cursor with
      | Except.error e => some ([], Except.error e)
      | Except.ok (keys, c) =>
        match fn keys with
        | Except.error e => some ([keys], Except.error e)
        | Except.ok _ =>
          if c = 0 then some ([keys], Except.ok ())
          else
            match scanLoop step fn fuel c with
            | none => none
            | some (bs, r) => some (keys :: bs, r) := rfl

theorem scanLoop_of_chain {E : Type} (step : Nat → Except E (List String × Nat))
    (fn : List String → Except E Unit) (rounds : List (List String × Nat))
    (hfn : ∀ p ∈ rounds, fn p.1 = Except.ok ()) :
    ∀ c, storeChain step c rounds →
      scanLoop step fn rounds.length c =
        some (rounds.map Prod.fst, Except.ok ()) := by
  induction rounds with
  | nil => intro c h; exact absurd h (by simp [storeChain])
  | cons hd tl ih =>
    intro c hchain
    obtain ⟨k, n⟩ := hd
    cases tl with
    | nil =>
      obtain ⟨hstep, hn⟩ := hchain
      have hk : fn k = Except.ok () := hfn (k, n) (by simp)
      subst hn
      simp [scanLoop, hstep, hk]
    | cons r rs =>
      obtain ⟨hstep, hn, hrest⟩ := hchain
      have hk : fn k = Except.ok () := hfn (k, n) (by simp)
      have htl : ∀ p ∈ r :: rs, fn p.1 = Except.ok () := by
        intro p hp; exact hfn p (List.mem_cons_of_mem _ hp)
      have hrec := ih htl n hrest
      rw [List.length_cons] at hrec
      rw [List.length_cons, scanLoop_succ, hstep]
      simp [hk, hn, hrec]

theorem all_isSome_of_forall {E : Type}
    (masters : List (String → Int → Nat → Except E (List String × Nat)))
    (pattern : String) (count : Int) (fn : List String → Except E Unit) (fuel : Nat)
    (hterm : ∀ m ∈ masters, (scanLoop (m pattern count) fn fuel 0).isSome = true) :
    (masters.map fun m => scanLoop (m pattern count) fn fuel 0).all
      Option.isSome = true := by
  rw [List.all_eq_true]
  intro x hx
  obtain ⟨m, hm, rfl⟩ := List.mem_map.mp hx
  exact hterm m hm

/-- Claim C1: for every pattern, batch-size hint and store state — given as
a run of the external store that enumerates, over its rounds, exactly the
keys of the store matching the pattern, once each, in batches within the
hint, ending with the zero cursor — `Scan`'s cursor loop invokes the
callback with every matching key exactly once, with no duplicates and no
non-matching key, in batches of size at most the hint, and terminates at
the round whose returned cursor is the sentinel zero (within fuel equal to
the number of rounds). -/
theorem scan_enumerates_matching_keys {E : Type}
    (step : String → Int → Nat → Except E (List String × Nat))
    (pattern : String) (count : Int) (fn : List String → Except E Unit)
    (storeKeys : List String) (matchesKey : String → Bool)
    (rounds : List (List String × Nat))
    (hchain : storeChain (step pattern count) 0 rounds)
    (hkeys : ∀ k, k ∈ (rounds.map Prod.fst).flatten ↔
      (k ∈ storeKeys ∧ matchesKey k = true))
    (hnodup : (rounds.map Prod.fst).flatten.Nodup)
    (hsize : ∀ p ∈ rounds, (p.1.length : Int) ≤ count)
    (hfn : ∀ p ∈ rounds, fn p.1 = Except.ok ()) :
    ScanSingle step pattern count fn rounds.length =
      some (rounds.map Prod.fst, Except.ok ()) ∧
    (∀ k, k ∈ storeKeys → matchesKey k = true →
      (rounds.map Prod.fst).flatten.count k = 1) ∧
    (∀ k, matchesKey k = false → (rounds.map Prod.fst).flatten.count k = 0) ∧
    (∀ b ∈ rounds.map Prod.fst, (b.length : Int) ≤ count) := by
  refine ⟨?_, ?_, ?_, ?_⟩
  · exact scanLoop_of_chain (step pattern count) fn rounds hfn 0 hchain
  · intro k hk hm
    exact List.count_eq_one_of_mem hnodup ((hkeys k).mpr ⟨hk, hm⟩)
  · intro k hm
    refine List.count_eq_zero.mpr ?_
    intro hmem
    rw [((hkeys k).mp hmem).2] at hm
    exact Bool.true_eq_false.mp hm
  · intro b hb
    obtain ⟨p, hp, rfl⟩ := List.mem_map.mp hb
    exact hsize p hp

theorem scan_enumerates_matching_keys_witness :
    ScanSingle stepW "a:*" 10 fnOk 2 =
      some ([["a:1"], ["a:2"]], Except.ok ()) := by
  have h := scan_enumerates_matching_keys stepW "a:*" 10 fnOk
    ["a:1", "a:2"] (fun _ => true) [(["a:1"], 5), (["a:2"], 0)]
    ⟨rfl, by decide, rfl, rfl⟩
    (by intro k; simp)
    (by decide) (by decide) (fun p _ => rfl)
  exact h.1

/-- Claim C4: for every single-node `Scan` in which no store request and no
callback invocation fails (a successful store run `rounds`, the callback
succeeding on every batch), the loop threads the returned next-cursor
through every round and, at the round whose returned cursor is the
sentinel zero, the scan completes: the callback trace is exactly the
store's batches and `Scan` returns success (nil). -/
theorem scan_single_success_returns_nil {E : Type}
    (step : String → Int → Nat → Except E (List String × Nat))
    (masters : List (String → Int → Nat → Except E (List String × Nat)))
    (pattern : String) (count : Int) (fn : List String → Except E Unit)
    (arrival : List Nat) (masterErr : Option E)
    (rounds : List (List String × Nat))
    (hchain : storeChain (step pattern count) 0 rounds)
    (hfn : ∀ p ∈ rounds, fn p.1 = Except.ok ()) :
    ScanSingle step pattern count fn rounds.length =
      some (rounds.map Prod.fst, Except.ok ()) ∧
    Scan false step masters pattern count fn rounds.length arrival masterErr =
      some none := by
  have h := scanLoop_of_chain (step pattern count) fn rounds hfn 0 hchain
  refine ⟨h, ?_⟩
  simp [Scan, ScanSingle, h]

theorem scan_single_success_returns_nil_witness :
    Scan false stepW [] "a:*" 10 fnOk 2 [] none = some none := by
  have h := scan_single_success_returns_nil stepW [] "a:*" 10 fnOk [] none
    [(["a:1"], 5), (["a:2"], 0)] ⟨rfl, by decide, rfl, rfl⟩ (fun p _ => rfl)
  exact h.2

/-- Claim C3: if the callback fails on the batch fetched at any cursor, the
scan loop returns exactly that failure, with that batch as the only
callback invocation from that round on — no further scan rounds and no
retry, whatever fuel remains and whatever next cursor the store returned;
at the top level the single-node `Scan` then returns that failure.  The
same `scanLoop` is the per-shard loop of the cluster branch, so the shard
worker aborts identically. -/
theorem scan_callback_failure_fail_fast {E : Type}
    (step : String → Int → Nat → Except E (List String × Nat))
    (pattern : String) (count : Int) (fn : List String → Except E Unit)
    (cursor : Nat) (keys : List String) (next : Nat) (e : E)
    (hstep : step pattern count cursor = Except.ok (keys, next))
    (hfn : fn keys = Except.error e) (fuel : Nat) :
    scanLoop (step pattern count) fn (fuel + 1) cursor =
      some ([keys], Except.error e) ∧
    (cursor = 0 →
      ∀ masters arrival masterErr,
        Scan false step masters pattern count fn (fuel + 1) arrival masterErr =
          some (some e)) := by
  have h1 : scanLoop (step pattern count) fn (fuel + 1) cursor =
      some ([keys], Except.error e) := by
    rw [scanLoop_succ, hstep]
    simp [hfn]
  refine ⟨h1, ?_⟩
  intro hc masters arrival masterErr
  subst hc
  simp [Scan, ScanSingle, h1]

theorem scan_callback_failure_fail_fast_witness :
    scanLoop (stepW "a:*" 10) fnBad 5 0 =
      some ([["a:1"]], Except.error "callback failed") ∧
    Scan false stepW [] "a:*" 10 fnBad 5 [] none =
      some (some "callback failed") := by
  have h := scan_callback_failure_fail_fast stepW "a:*" 10 fnBad 0 ["a:1"] 5
    "callback failed" rfl rfl 4
  exact ⟨h.1, h.2 rfl [] [] none⟩

/-- Claim C9: in every scan loop (single-node, and per shard in cluster
mode — both run `scanLoop`), the callback receives the batch of a round
before the zero-cursor completion check: whenever the first store request
answers with a batch — even an empty batch together with the zero cursor —
every terminating run has that batch as its first callback invocation, so
the callback is invoked at least once. -/
theorem scan_callback_invoked_before_zero_check {E : Type}
    (step : Nat → Except E (List String × Nat))
    (fn : List String → Except E Unit) (keys : List String) (c : Nat)
    (h0 : step 0 = Except.ok (keys, c)) (fuel : Nat)
    (bs : List (List String)) (r : Except E Unit)
    (hrun : scanLoop step fn (fuel + 1) 0 = some (bs, r)) :
    bs.head? = some keys ∧ bs ≠ [] := by
  rw [scanLoop_succ, h0] at hrun
  cases hfn : fn keys with
  | error e =>
    simp only [hfn, Option.some.injEq, Prod.mk.injEq] at hrun
    obtain ⟨h1, -⟩ := hrun
    subst h1
    exact ⟨rfl, by simp⟩
  | ok u =>
    simp only [hfn] at hrun
    by_cases hc : c = 0
    · simp only [if_pos hc, Option.some.injEq, Prod.mk.injEq] at hrun
      obtain ⟨h1, -⟩ := hrun
      subst h1
      exact ⟨rfl, by simp⟩
    · simp only [if_neg hc] at hrun
      cases hrec : scanLoop step fn fuel c with
      | none => rw [hrec] at hrun; simp at hrun
      | some pr =>
        obtain ⟨bs', r'⟩ := pr
        rw [hrec] at hrun
        simp only [Option.some.injEq, Prod.mk.injEq] at hrun
        obtain ⟨h1, -⟩ := hrun
        subst h1
        exact ⟨rfl, by simp⟩

theorem scan_callback_invoked_before_zero_check_witness :
    ([[]] : List (List String)).head? = some ([] : List String) ∧
      ([[]] : List (List String)) ≠ [] :=
  scan_callback_invoked_before_zero_check (stepEmpty "x" 1) fnOk [] 0 rfl 0
    [[]] (Except.ok ()) rfl

/-- Claim C2: in cluster mode, when at least one shard's scan fails (every
shard loop terminating within the fuel), `Scan` returns exactly one of the
shard-recorded errors: the first failure in mutex-arrival order
(first-error-wins).  The result is never nil, and never a synthesized
error — the returned error is some shard's own recorded error; the other
shards' failures are observed in the outcome list but not returned. -/
theorem scan_cluster_first_error_wins {E : Type}
    (masters : List (String → Int → Nat → Except E (List String × Nat)))
    (pattern : String) (count : Int) (fn : List String → Except E Unit)
    (fuel : Nat) (arrival : List Nat) (masterErr : Option E)
    (hterm : ∀ m ∈ masters, (scanLoop (m pattern count) fn fuel 0).isSome = true)
    (hperm : arrival.Perm (List.range masters.length))
    (i : Nat) (e : E) (hi : i < masters.length)
    (hfail : (shardOutcomes masters pattern count fn fuel).getD i none = some e) :
    ∃ e', ScanCluster masters pattern count fn fuel arrival masterErr =
        some (some e') ∧
      (arrival.findSome? fun j =>
        (shardOutcomes masters pattern count fn fuel).getD j none) = some e' ∧
      ∃ j, j < masters.length ∧
        (shardOutcomes masters pattern count fn fuel).getD j none = some e' := by
  have hguard := all_isSome_of_forall masters pattern count fn fuel hterm
  have hmem : i ∈ arrival := hperm.mem_iff.mpr (List.mem_range.mpr hi)
  have hsome : (arrival.findSome? fun j =>
      (shardOutcomes masters pattern count fn fuel).getD j none).isSome = true := by
    rw [List.findSome?_isSome_iff]
    exact ⟨i, hmem, by rw [hfail]; rfl⟩
  obtain ⟨e', he'⟩ := Option.isSome_iff_exists.mp hsome
  refine ⟨e', ?_, he', ?_⟩
  · simp only [ScanCluster]
    rw [if_pos hguard, he']
  · obtain ⟨j, hj, hje⟩ := List.exists_of_findSome?_eq_some he'
    exact ⟨j, List.mem_range.mp (hperm.mem_iff.mp hj), hje⟩

theorem scan_cluster_first_error_wins_witness :
    ScanCluster [stepW, stepDown] "a:*" 10 fnOk 2 [0, 1] none =
      some (some "shard down") := by
  obtain ⟨e', h1, h2, -⟩ := scan_cluster_first_error_wins
    [stepW, stepDown] "a:*" 10 fnOk 2 [0, 1] none
    (by decide) (by decide) 1 "shard down" (by decide) rfl
  have hv : (List.findSome? (fun j =>
      (shardOutcomes [stepW, stepDown] "a:*" 10 fnOk 2).getD j none) [0, 1]) =
      some "shard down" := rfl
  rw [hv] at h2
  injection h2 with h3
  rw [← h3] at h1
  exact h1

/-- Claim C10: in cluster mode (every shard loop terminating within the
fuel), an error recorded by any shard worker takes precedence over the
error returned by the master-enumeration call itself: when the
arrival-ordered shard outcomes contain a first recorded error, `Scan`
returns it whatever the enumeration error is, and the enumeration error is
returned exactly when no shard worker recorded an error. -/
theorem scan_cluster_shard_error_precedence {E : Type}
    (masters : List (String → Int → Nat → Except E (List String × Nat)))
    (pattern : String) (count : Int) (fn : List String → Except E Unit)
    (fuel : Nat) (arrival : List Nat) (masterErr : Option E)
    (hterm : ∀ m ∈ masters, (scanLoop (m pattern count) fn fuel 0).isSome = true) :
    (∀ e, (arrival.findSome? fun i =>
        (shardOutcomes masters pattern count fn fuel).getD i none) = some e →
      ScanCluster masters pattern count fn fuel arrival masterErr =
        some (some e)) ∧
    ((∀ i ∈ arrival,
        (shardOutcomes masters pattern count fn fuel).getD i none = none) →
      ScanCluster masters pattern count fn fuel arrival masterErr =
        some masterErr) := by
  have hguard := all_isSome_of_forall masters pattern count fn fuel hterm
  constructor
  · intro e he
    simp only [ScanCluster]
    rw [if_pos hguard, he]
  · intro hnone
    have hfind : (arrival.findSome? fun i =>
        (shardOutcomes masters pattern count fn fuel).getD i none) = none :=
      List.findSome?_eq_none_iff.mpr hnone
    simp only [ScanCluster]
    rw [if_pos hguard, hfind]

theorem scan_cluster_shard_error_precedence_witness :
    ScanCluster [stepW] "a:*" 10 fnOk 2 [0] (some "enum failed") =
      some (some "enum failed") := by
  have h := scan_cluster_shard_error_precedence [stepW] "a:*" 10 fnOk 2 [0]
    (some "enum failed") (by decide)
  exact h.2 (by decide)

/-- Claim C5: for every key, when the store's type query answers the "no
such key" sentinel value "none", `Type` (modelled as `TypeGo`, in either
mode) returns the does-not-exist error — the `NotFoundError` of the spec's
taxonomy — which differs from every transport-error wrap (`StoreError`)
both as an error value and as a rendered message, and `Type` does not
return the raw store value "none". -/
theorem type_none_not_found (isCluster : Bool) (key : String)
    (res : Except String String) (hres : res = Except.ok "none") :
    TypeGo isCluster res res key = Except.error (GoErr.typeNotFoundErr key) ∧
    (∀ k c, GoErr.typeNotFoundErr key ≠ GoErr.typeStoreErr k c) ∧
    (∀ k c, (GoErr.typeNotFoundErr key).render ≠
      (GoErr.typeStoreErr k c).render) ∧
    TypeGo isCluster res res key ≠ Except.ok "none" := by
  subst hres
  refine ⟨?_, ?_, ?_, ?_⟩
  · cases isCluster <;> simp [TypeGo, typeBranch]
  · intro k c h; exact GoErr.noConfusion h
  · intro k c h
    have h2 := congrArg (fun s => s.data.head?) h
    simp only [GoErr.render, String.data_append] at h2
    simp at h2
  · cases isCluster <;> simp [TypeGo, typeBranch]

theorem type_none_not_found_witness :
    TypeGo false (Except.ok "none") (Except.ok "none") "mykey" =
      Except.error (GoErr.typeNotFoundErr "mykey") := by
  have h := type_none_not_found false "mykey" (Except.ok "none") rfl
  exact h.1

/-- Claim C6: for every existing key, `Get` returns the exact stored string
value; on any store failure it returns the store-error wrap, with no
special case for missing keys (the driver's missing-key sentinel error is
wrapped like every other error), and the wrap's message surfaces the
store's raw error verbatim as a suffix. -/
theorem get_exact_value_or_store_error (isCluster : Bool) (key : String) :
    (∀ v, Get isCluster (Except.ok v) (Except.ok v) key = Except.ok v) ∧
    (∀ e, Get isCluster (Except.error e) (Except.error e) key =
      Except.error (GoErr.getStoreErr key e)) ∧
    (∀ e, ∃ p, (GoErr.getStoreErr key e).render = p ++ e) := by
  refine ⟨?_, ?_, ?_⟩
  · intro v; cases isCluster <;> simp [Get, getBranch]
  · intro e; cases isCluster <;> simp [Get, getBranch]
  · intro e; exact ⟨_, rfl⟩

theorem get_exact_value_or_store_error_witness :
    Get false (Except.ok "stored") (Except.ok "stored") "k" =
      Except.ok "stored" ∧
    Get false (Except.error "redis: nil") (Except.error "redis: nil") "k" =
      Except.error (GoErr.getStoreErr "k" "redis: nil") := by
  have h := get_exact_value_or_store_error false "k"
  exact ⟨h.1 "stored", h.2.1 "redis: nil"⟩

/-- Claim C7: `InitRedisClient` branches on the cluster-mode flag; the
single-node path constructs the client from address, password and
database-index, the cluster path constructs it from the node-address list
and password only (the database-index is unused: configurations differing
only in it initialize identically); in both modes initialization succeeds
exactly when the liveness probe succeeds, and otherwise fails with the
corresponding connection error. -/
theorem init_branches_on_mode_and_probe (ping : Handle → Option String)
    (cfg : RedisConfig) (g : Globals) :
    (InitRedisClient ping cfg g).1.client = some (builtHandle cfg) ∧
    (cfg.isCluster = false →
      builtHandle cfg = Handle.single cfg.addr cfg.password cfg.db) ∧
    (cfg.isCluster = true →
      builtHandle cfg = Handle.cluster cfg.nodes cfg.password) ∧
    (cfg.isCluster = true → ∀ db',
      InitRedisClient ping { cfg with db := db' } g =
        InitRedisClient ping cfg g) ∧
    ((InitRedisClient ping cfg g).2 = none ↔ ping (builtHandle cfg) = none) ∧
    (∀ e, ping (builtHandle cfg) = some e →
      (InitRedisClient ping cfg g).2 =
        some (if cfg.isCluster then GoErr.connectClusterErr e
          else GoErr.connectErr e)) := by
  obtain ⟨ic, nodes, addr, pw, db⟩ := cfg
  cases ic with
  | false =>
    cases hp : ping (Handle.single addr pw db) with
    | none =>
      refine ⟨?_, ?_, ?_, ?_, ?_, ?_⟩ <;>
        simp [InitRedisClient, initSingleClient, builtHandle, hp]
    | some e =>
      refine ⟨?_, ?_, ?_, ?_, ?_, ?_⟩ <;>
        simp [InitRedisClient, initSingleClient, builtHandle, hp]
  | true =>
    cases hp : ping (Handle.cluster nodes pw) with
    | none =>
      refine ⟨?_, ?_, ?_, ?_, ?_, ?_⟩ <;>
        simp [InitRedisClient, initClusterClient, builtHandle, hp]
    | some e =>
      refine ⟨?_, ?_, ?_, ?_, ?_, ?_⟩ <;>
        simp [InitRedisClient, initClusterClient, builtHandle, hp]

theorem init_branches_on_mode_and_probe_witness :
    (InitRedisClient pingUp cfgCluster g0).2 = none ∧
    (InitRedisClient pingDown cfgSingle g0).2 =
      some (GoErr.connectErr "dial refused") := by
  have h1 := init_branches_on_mode_and_probe pingUp cfgCluster g0
  have h2 := init_branches_on_mode_and_probe pingDown cfgSingle g0
  refine ⟨h1.2.2.2.2.1.mpr rfl, ?_⟩
  have h3 := h2.2.2.2.2.2 "dial refused" rfl
  simpa [cfgSingle] using h3

/-- Claim C8: when the liveness probe fails, `InitRedisClient` returns an
error, yet the global `Client` handle has already been set to the newly
constructed, unverified client (and in cluster mode `ClusterClient` to the
same client): a failed initialization publishes the handle into shared
process state whatever the previous globals were, rather than leaving them
unchanged. -/
theorem init_publishes_handle_on_probe_failure (ping : Handle → Option String)
    (cfg : RedisConfig) (g : Globals) (e : String)
    (hfail : ping (builtHandle cfg) = some e) :
    (InitRedisClient ping cfg g).2 ≠ none ∧
    (InitRedisClient ping cfg g).1.client = some (builtHandle cfg) ∧
    (cfg.isCluster = true →
      (InitRedisClient ping cfg g).1.clusterClient = some (builtHandle cfg)) := by
  obtain ⟨ic, nodes, addr, pw, db⟩ := cfg
  cases ic with
  | false =>
    simp only [builtHandle, Bool.false_eq_true, if_false] at hfail
    refine ⟨?_, ?_, ?_⟩ <;>
      simp [InitRedisClient, initSingleClient, builtHandle, hfail]
  | true =>
    simp only [builtHandle, if_true] at hfail
    refine ⟨?_, ?_, ?_⟩ <;>
      simp [InitRedisClient, initClusterClient, builtHandle, hfail]

theorem init_publishes_handle_on_probe_failure_witness :
    (InitRedisClient pingDown cfgSingle g0).2 ≠ none ∧
    (InitRedisClient pingDown cfgSingle g0).1.client =
      some (builtHandle cfgSingle) := by
  have h := init_publishes_handle_on_probe_failure pingDown cfgSingle g0
    "dial refused" rfl
  exact ⟨h.1, h.2.1⟩

end RedisClient
